import Mathlib

/-!
Shallow embedding of the prediction trading venue
(`src/scripts/venue_manager.py` and `src/scripts/trading_integration.py`).

Conventions of the embedding:
* Python floats are modelled as rationals (`ℚ`); all arithmetic in the
  source is exact on the inputs we consider.
* Wall-clock timestamps are threaded as a `now : ℕ` parameter (seconds);
  string formatting of numbers (`f"{x:.2%}"`) is abstracted to `toString`.
* Stubbed collaborators of the source (`get_agent_prediction`,
  `get_agent_reputation_weight`, `get_current_exposure`, the trading
  engine) are passed as explicit function arguments, following the
  external-interface contracts of spec §6.
* Python exceptions raised by a collaborator are modelled as `Except`
  values; `try/except` blocks become `match` on those values.
-/

namespace Venue

/-- Configuration keys of `venue_config` used by the venue manager and the
bridge (`get_default_config` in venue_manager.py, and the `.get` defaults
in trading_integration.py).  Defaults: `execution_threshold = 0.70`,
`max_position_size = 0.025`, `min_agents_per_market = 3`. -/
structure VenueConfig where
  execution_threshold : ℚ
  max_position_size : ℚ
  min_agents_per_market : ℕ
deriving DecidableEq, Repr

/-- The default venue configuration (`get_default_config`). -/
def defaultVenueConfig : VenueConfig :=
  { execution_threshold := 7/10
    max_position_size := 1/40
    min_agents_per_market := 3 }

/-- Risk-management keys of the trading config used by the bridge
(`get_default_trading_config` in trading_integration.py). -/
structure TradingConfig where
  max_position_size : ℚ
  stop_loss : ℚ
  take_profit : ℚ
  max_positions : ℕ
deriving DecidableEq, Repr

/-- The default trading configuration (`get_default_trading_config`):
max_position_size 0.02, stop_loss 0.015, take_profit 0.03,
max_positions 5. -/
def defaultTradingConfig : TradingConfig :=
  { max_position_size := 1/50
    stop_loss := 3/200
    take_profit := 3/100
    max_positions := 5 }

/-- A prediction market as built by `create_crypto_market`: the fields the
consensus path reads (`id`, `type`, `asset`, `participants`). -/
structure Market where
  id : String
  mtype : String
  asset : String
  participants : List String
deriving DecidableEq, Repr

/-- The prediction of one agent for a market, as returned by the
`get_agent_prediction` collaborator: `signal` in [-1,1] and `confidence`
in [0,1] per the data model. -/
structure AgentPrediction where
  signal : ℚ
  confidence : ℚ
deriving DecidableEq, Repr

/-- `MarketConsensus` dataclass of venue_manager.py. -/
structure MarketConsensus where
  asset : String
  signal_strength : ℚ
  confidence : ℚ
  agent_count : ℕ
  prediction_data : Market
  timestamp : ℕ
deriving DecidableEq, Repr

/-- `TradingSignal` dataclass of venue_manager.py. -/
structure VenueTradingSignal where
  asset : String
  direction : String
  size : ℚ
  confidence : ℚ
  reasoning : String
  expiry : ℕ
deriving DecidableEq, Repr

/-- The accumulation loop of `calculate_crypto_consensus`: over the
participant list, for each agent with a prediction add its reputation
weight, weighted signal and weighted confidence.  Returns
`(total_weight, weighted_signal, confidence_sum)`. -/
def consensus_sums (getPred : String → Option AgentPrediction)
    (repWeight : String → ℚ) : List String → ℚ × ℚ × ℚ
  | [] => (0, 0, 0)
  | a :: rest =>
    let acc := consensus_sums getPred repWeight rest
    match getPred a with
    | some p =>
        (acc.1 + repWeight a, acc.2.1 + p.signal * repWeight a,
         acc.2.2 + p.confidence * repWeight a)
    | none => acc

/-- `AutomatedPredictionVenue.calculate_crypto_consensus`:
fewer than 2 participants → no consensus; zero total weight → no
consensus; otherwise the weighted means.  The prediction source and
reputation weights are the stubbed collaborators passed explicitly. -/
def calculate_crypto_consensus (getPred : String → Option AgentPrediction)
    (repWeight : String → ℚ) (now : ℕ) (m : Market) : Option MarketConsensus :=
  if m.participants.length < 2 then none
  else
    let acc := consensus_sums getPred repWeight m.participants
    if acc.1 = 0 then none
    else some
      { asset := m.asset
        signal_strength := acc.2.1 / acc.1
        confidence := acc.2.2 / acc.1
        agent_count := m.participants.length
        prediction_data := m
        timestamp := now }

/-- `AutomatedPredictionVenue.aggregate_consensus`: for each active market
of type `"crypto_price"`, compute its consensus and keep the non-`none`
results. -/
def aggregate_consensus (getPred : String → Option AgentPrediction)
    (repWeight : String → ℚ) (now : ℕ) (markets : List Market) :
    List MarketConsensus :=
  markets.filterMap fun m =>
    if m.mtype = "crypto_price" then
      calculate_crypto_consensus getPred repWeight now m
    else none

/-- `AutomatedPredictionVenue.calculate_position_size`:
`min(max_size * confidence * |signal_strength|, max_size)` — the venue
manager applies only the upper cap. -/
def venue_calculate_position_size (cfg : VenueConfig)
    (consensus : MarketConsensus) : ℚ :=
  min (cfg.max_position_size * consensus.confidence * |consensus.signal_strength|)
    cfg.max_position_size

/-- Signal construction in the loop body of
`AutomatedPredictionVenue.generate_signals` (the `TradingSignal(...)`
constructor call). -/
def venue_signal_of (cfg : VenueConfig) (now : ℕ)
    (consensus : MarketConsensus) : VenueTradingSignal :=
  { asset := consensus.asset
    direction := if 0 < consensus.signal_strength then "long" else "short"
    size := venue_calculate_position_size cfg consensus
    confidence := consensus.confidence
    reasoning := "Prediction consensus: " ++ toString consensus.signal_strength
      ++ " with " ++ toString consensus.confidence ++ " confidence"
    expiry := now + 24 * 3600 }

/-- `AutomatedPredictionVenue.generate_signals`: keep each consensus whose
confidence is at least `execution_threshold` (inclusive) and convert it to
a trading signal. -/
def generate_signals (cfg : VenueConfig) (now : ℕ) :
    List MarketConsensus → List VenueTradingSignal
  | [] => []
  | c :: rest =>
    if cfg.execution_threshold ≤ c.confidence then
      venue_signal_of cfg now c :: generate_signals cfg now rest
    else generate_signals cfg now rest

/-- Spec-side definition, following §4.2 of the spec verbatim:
"Size fraction = clamp(max_size × |signal_strength| × confidence,
min_size, max_size) … min_size = 0.25 × max_size". -/
def size_clamp_spec (max_size s c : ℚ) : ℚ :=
  max (1/4 * max_size) (min (max_size * |s| * c) max_size)

/-! ## The bridge (`trading_integration.py`) -/

/-- A consensus record as the bridge receives it — a dict whose four
required fields may individually be absent (`validate_consensus` checks
them; a missing key in `create_trading_signal` raises a `KeyError`, which
the `try/except` in the caller turns into a skipped item, modelled as `none`). -/
structure BridgeConsensus where
  asset : Option String
  signal_strength : Option ℚ
  confidence : Option ℚ
  agent_count : Option ℕ
deriving DecidableEq, Repr

/-- `PredictionTradingBridge.validate_consensus`: all four required fields
present, confidence not strictly below `execution_threshold`, agent count
not strictly below `min_agents_per_market`. -/
def validate_consensus (cfg : VenueConfig) (c : BridgeConsensus) : Bool :=
  match c.asset, c.signal_strength, c.confidence, c.agent_count with
  | some _, some _, some conf, some n =>
    if conf < cfg.execution_threshold then false
    else if n < cfg.min_agents_per_market then false
    else true
  | _, _, _, _ => false

/-- The Python `str.upper` call on ASCII asset names, defined structurally over
the character list so it evaluates. -/
def py_upper (s : String) : String :=
  String.mk (s.data.map Char.toUpper)

/-- `PredictionTradingBridge.map_asset_to_pair`: the fixed asset table,
looked up on the upper-cased asset name. -/
def map_asset_to_pair (asset : String) : Option String :=
  if py_upper asset = "BTC" then some "BTC-USDT"
  else if py_upper asset = "ETH" then some "ETH-USDT"
  else if py_upper asset = "SOL" then some "SOL-USDT"
  else if py_upper asset = "ARB" then some "ARB-USDT"
  else if py_upper asset = "AVAX" then some "AVAX-USDT"
  else none

/-- `PredictionTradingBridge.calculate_position_size`:
`max(min_size, min(base_size * |signal_strength| * confidence, max_size))`
with `min_size = base_size * 0.25` and `max_size = base_size * 1.0`, where
`base_size` is `max_position_size` from the venue config. -/
def bridge_calculate_position_size (cfg : VenueConfig)
    (signal_strength confidence : ℚ) : ℚ :=
  max (cfg.max_position_size * (1/4))
    (min (cfg.max_position_size * |signal_strength| * confidence)
      (cfg.max_position_size * 1))

/-- `RiskDecision` returned by `assess_trade_risk`: the rejection dicts
carry no stop-loss/take-profit keys, modelled as `none`.  The reason
strings of the source interpolate the offending numbers; the embedding
keeps their fixed prefix. -/
structure RiskDecision where
  approved : Bool
  reason : String
  stop_loss : Option ℚ
  take_profit : Option ℚ
deriving DecidableEq, Repr

/-- The check sequence inside the `try` block of
`PredictionTradingBridge.assess_trade_risk`, given the exposure returned
by the `get_current_exposure` collaborator: exposure at or above
`max_positions` rejects; then size above `max_position_size` rejects;
otherwise approve with the configured stop-loss and take-profit. -/
def assess_trade_risk_checks (tcfg : TradingConfig) (current_exposure : ℕ)
    (size : ℚ) : RiskDecision :=
  if tcfg.max_positions ≤ current_exposure then
    { approved := false, reason := "Maximum exposure reached"
      stop_loss := none, take_profit := none }
  else if tcfg.max_position_size < size then
    { approved := false, reason := "Position size exceeds limit"
      stop_loss := none, take_profit := none }
  else
    { approved := true, reason := "Trade approved"
      stop_loss := some tcfg.stop_loss, take_profit := some tcfg.take_profit }

/-- `PredictionTradingBridge.assess_trade_risk`: the only fallible call in
its `try` block is `get_current_exposure`; its result arrives as an
`Except` and the `except` branch returns a non-approved decision with a
"Risk assessment error" reason. -/
def assess_trade_risk (tcfg : TradingConfig)
    (exposureResult : Except String ℕ) (size : ℚ) : RiskDecision :=
  match exposureResult with
  | .error _ => { approved := false, reason := "Risk assessment error"
                  stop_loss := none, take_profit := none }
  | .ok exposure => assess_trade_risk_checks tcfg exposure size

/-- Executable trading signal dict built by
`PredictionTradingBridge.create_trading_signal`. -/
structure BridgeTradingSignal where
  id : String
  source : String
  timestamp : ℕ
  trading_pair : String
  direction : String
  size : ℚ
  confidence : ℚ
  signal_strength : ℚ
  entry_type : String
  stop_loss : Option ℚ
  take_profit : Option ℚ
  reasoning : String
  prediction_data : BridgeConsensus
  expiry : ℕ
deriving DecidableEq, Repr

/-- `PredictionTradingBridge.create_trading_signal`: map the asset to a
trading pair (or drop), choose direction by the sign of the signal
strength, size the position, run risk assessment, and on approval emit
the signal dict — with `signal_strength := |signal_strength|` and the
original consensus dict stored under `prediction_data`. -/
def create_trading_signal (vcfg : VenueConfig) (tcfg : TradingConfig)
    (exposureOf : String → Except String ℕ) (now : ℕ)
    (c : BridgeConsensus) : Option BridgeTradingSignal :=
  match c.asset, c.signal_strength, c.confidence, c.agent_count with
  | some asset, some signal_strength, some confidence, some agent_count =>
    match map_asset_to_pair asset with
    | none => none
    | some trading_pair =>
      let direction := if 0 < signal_strength then "long" else "short"
      let position_size := bridge_calculate_position_size vcfg signal_strength confidence
      let risk := assess_trade_risk tcfg (exposureOf trading_pair) position_size
      if risk.approved then
        some
          { id := "pred_" ++ asset ++ "_" ++ toString now
            source := "prediction_venue"
            timestamp := now
            trading_pair := trading_pair
            direction := direction
            size := position_size
            confidence := confidence
            signal_strength := |signal_strength|
            entry_type := "market"
            stop_loss := risk.stop_loss
            take_profit := risk.take_profit
            reasoning := "Prediction consensus: " ++ toString signal_strength
              ++ " signal with " ++ toString confidence ++ " confidence from "
              ++ toString agent_count ++ " agents"
            prediction_data := c
            expiry := now + 24 * 3600 }
      else none
  | _, _, _, _ => none

/-! ## Execution and performance tracking (`trading_integration.py`) -/

/-- The `performance_metrics` dict of the bridge (counters start at 0 in
`__init__`). -/
structure PerformanceMetrics where
  total_signals : ℕ
  executed_trades : ℕ
  profitable_trades : ℕ
  total_pnl : ℚ
  accuracy_rate : ℚ
  avg_hold_time : ℚ
deriving DecidableEq, Repr

/-- Initial `performance_metrics` of `PredictionTradingBridge.__init__`. -/
def initialMetrics : PerformanceMetrics :=
  { total_signals := 0, executed_trades := 0, profitable_trades := 0
    total_pnl := 0, accuracy_rate := 0, avg_hold_time := 0 }

/-- Result of the `execute_trade` call on the trading engine: trade id, price
and volume. -/
structure Fill where
  trade_id : String
  price : ℚ
  volume : ℚ
deriving DecidableEq, Repr

/-- The per-trade result dict of
`PredictionTradingBridge.execute_single_trade` (`success` plus either the
fill data or the error string; the wall-clock `timestamp` field is
omitted). -/
structure TradeResult where
  success : Bool
  trade_id : Option String
  executed_price : Option ℚ
  volume : ℚ
  error : Option String
deriving DecidableEq, Repr

/-- `PredictionTradingBridge.execute_single_trade`: call the trading
engine; an exception from it (the `Except.error` case) is caught and
returned as a failure result. -/
def execute_single_trade (engine : BridgeTradingSignal → Except String Fill)
    (s : BridgeTradingSignal) : TradeResult :=
  match engine s with
  | .ok f =>
    { success := true, trade_id := some f.trade_id
      executed_price := some f.price, volume := f.volume, error := none }
  | .error e =>
    { success := false, trade_id := none, executed_price := none
      volume := 0, error := some e }

/-- Open-trade record appended by
`PredictionTradingBridge.track_prediction_trade`. -/
structure TradeRecord where
  id : String
  prediction_data : BridgeConsensus
  execution_data : TradeResult
  status : String
  pnl : ℚ
deriving DecidableEq, Repr

/-- The `execution_results` accumulator dict of
`execute_prediction_trades`. -/
structure ExecutionResults where
  successful : ℕ
  failed : ℕ
  total_volume : ℚ
  trades : List TradeResult
deriving DecidableEq, Repr

/-- The signal loop of `execute_prediction_trades`: each signal gets one
execution attempt; a success increments `successful`, adds its volume,
appends the result to `trades` and records an open trade
(`track_prediction_trade`); a failure only increments `failed`.  Nothing
aborts the remaining signals. -/
def exec_signals (engine : BridgeTradingSignal → Except String Fill) :
    List BridgeTradingSignal → ExecutionResults → List TradeRecord →
    ExecutionResults × List TradeRecord
  | [], res, open_trades => (res, open_trades)
  | s :: rest, res, open_trades =>
    let r := execute_single_trade engine s
    if r.success then
      exec_signals engine rest
        { res with
          successful := res.successful + 1
          total_volume := res.total_volume + r.volume
          trades := res.trades ++ [r] }
        (open_trades ++ [{ id := s.id, prediction_data := s.prediction_data,
                           execution_data := r, status := "open", pnl := 0 }])
    else
      exec_signals engine rest { res with failed := res.failed + 1 } open_trades

/-- `PredictionTradingBridge.update_performance_metrics`: add the length
of the `trades` list of the results to `total_signals`, add `successful` to
`executed_trades`, and recompute `accuracy_rate` when `total_signals`
is positive. -/
def update_performance_metrics (m : PerformanceMetrics)
    (res : ExecutionResults) : PerformanceMetrics :=
  let m1 := { m with
    total_signals := m.total_signals + res.trades.length
    executed_trades := m.executed_trades + res.successful }
  if 0 < m1.total_signals then
    { m1 with accuracy_rate := (m1.executed_trades : ℚ) / (m1.total_signals : ℚ) }
  else m1

/-- Mutable state of the bridge read or written by the functions above:
its two configurations, the open prediction-trade list and the
performance metrics. -/
structure BridgeState where
  venue_config : VenueConfig
  trading_config : TradingConfig
  prediction_trades : List TradeRecord
  performance_metrics : PerformanceMetrics
deriving DecidableEq, Repr

/-- `assess_trade_risk` as a state transformer on the bridge: it reads
`trading_config` and writes nothing. -/
def assess_trade_risk_st (st : BridgeState)
    (exposureResult : Except String ℕ) (size : ℚ) :
    RiskDecision × BridgeState :=
  (assess_trade_risk st.trading_config exposureResult size, st)

/-- `PredictionTradingBridge.execute_prediction_trades`: run the signal
loop from fresh `execution_results`, then update the performance
metrics. -/
def execute_prediction_trades (engine : BridgeTradingSignal → Except String Fill)
    (st : BridgeState) (signals : List BridgeTradingSignal) :
    ExecutionResults × BridgeState :=
  let out := exec_signals engine signals
    { successful := 0, failed := 0, total_volume := 0, trades := [] }
    st.prediction_trades
  (out.1,
   { st with
     prediction_trades := out.2
     performance_metrics := update_performance_metrics st.performance_metrics out.1 })

/-! ## Cycle orchestration (`venue_manager.py`: `run_venue_cycle`, `main`) -/

/-- The six phases awaited in order by
`AutomatedPredictionVenue.run_venue_cycle`. -/
inductive Phase
  | manageMarkets
  | coordinateAgents
  | aggregateConsensusPhase
  | generateSignalsPhase
  | executeTradesPhase
  | updateMetricsPhase
deriving DecidableEq, Repr

/-- The order in which `run_venue_cycle` runs its phases. -/
def cycle_order : List Phase :=
  [.manageMarkets, .coordinateAgents, .aggregateConsensusPhase,
   .generateSignalsPhase, .executeTradesPhase, .updateMetricsPhase]

/-- A Python exception as seen by the handlers in `main`: `KeyboardInterrupt`
is caught separately from every other `Exception`. -/
inductive PyError
  | keyboardInterrupt
  | exception (msg : String)
deriving DecidableEq, Repr

/-- Sequential phase execution of `run_venue_cycle`: phases run in order;
the first one that raises stops the cycle (the `except` clause logs and
re-raises).  Returns the list of phases that actually ran and the outcome
of the cycle. -/
def run_phases (outcome : Phase → Except PyError Unit) :
    List Phase → List Phase × Except PyError Unit
  | [] => ([], .ok ())
  | p :: rest =>
    match outcome p with
    | .ok _ =>
      let out := run_phases outcome rest
      (p :: out.1, out.2)
    | .error e => ([p], .error e)

/-- `AutomatedPredictionVenue.run_venue_cycle` over its six phases. -/
def run_venue_cycle (outcome : Phase → Except PyError Unit) :
    List Phase × Except PyError Unit :=
  run_phases outcome cycle_order

/-- What one iteration of the `while True` loop in `main` does next. -/
inductive LoopAction
  | continueAfterSleep (seconds : ℕ)
  | shutdown
deriving DecidableEq, Repr

/-- One iteration of the `while True` loop in `main`: a clean cycle
sleeps `30 * 60` seconds; `KeyboardInterrupt` breaks the loop; any other
exception sleeps `60` seconds and the loop continues. -/
def main_iteration (cycleResult : Except PyError Unit) : LoopAction :=
  match cycleResult with
  | .ok _ => .continueAfterSleep (30 * 60)
  | .error .keyboardInterrupt => .shutdown
  | .error (.exception _) => .continueAfterSleep 60

/-! ## Spec-side formulas (§4.1 of the spec)

Written from the wording of the spec, to be compared with the loop of
`calculate_crypto_consensus`: `Σ(weight_i)`, `Σ(signal_i · weight_i)` and
`Σ(confidence_i · weight_i)` over the participants that have a retrieved
prediction. -/

/-- `Σ(weight_i)` over participants with a retrieved prediction. -/
def spec_weight_sum (getPred : String → Option AgentPrediction)
    (repWeight : String → ℚ) (ps : List String) : ℚ :=
  (ps.map fun a => match getPred a with
    | some _ => repWeight a
    | none => 0).sum

/-- `Σ(signal_i · weight_i)` over participants with a retrieved
prediction. -/
def spec_signal_sum (getPred : String → Option AgentPrediction)
    (repWeight : String → ℚ) (ps : List String) : ℚ :=
  (ps.map fun a => match getPred a with
    | some p => p.signal * repWeight a
    | none => 0).sum

/-- `Σ(confidence_i · weight_i)` over participants with a retrieved
prediction. -/
def spec_confidence_sum (getPred : String → Option AgentPrediction)
    (repWeight : String → ℚ) (ps : List String) : ℚ :=
  (ps.map fun a => match getPred a with
    | some p => p.confidence * repWeight a
    | none => 0).sum

/-! ## Concrete fixtures used by counterexamples and witnesses -/

/-- A three-participant crypto market. -/
def exMarket : Market :=
  { id := "crypto_BTC_0", mtype := "crypto_price", asset := "BTC"
    participants := ["alpha", "beta", "gamma"] }

/-- The prediction source of the worked example in spec §8:
(0.73, 0.85), (0.68, 0.78), (0.82, 0.71). -/
def exGetPred : String → Option AgentPrediction := fun a =>
  if a = "alpha" then some { signal := 73/100, confidence := 85/100 }
  else if a = "beta" then some { signal := 68/100, confidence := 78/100 }
  else if a = "gamma" then some { signal := 82/100, confidence := 71/100 }
  else none

/-- A consensus with weak signal strength (0.1) at threshold confidence
(0.7): it clears the execution threshold yet sizes far below
`0.25 × max_size`. -/
def weakConsensus : MarketConsensus :=
  { asset := "BTC", signal_strength := 1/10, confidence := 7/10
    agent_count := 3, prediction_data := exMarket, timestamp := 0 }

/-- A consensus whose confidence is exactly the default execution
threshold. -/
def boundaryConsensus : MarketConsensus :=
  { asset := "ETH", signal_strength := 1/2, confidence := 7/10
    agent_count := 4, prediction_data := exMarket, timestamp := 0 }

/-- A market with two participants. -/
def twoPartMarket : Market :=
  { id := "crypto_ETH_1", mtype := "crypto_price", asset := "ETH"
    participants := ["p1", "p2"] }

/-- A market with a single participant. -/
def soloMarket : Market :=
  { id := "crypto_SOL_2", mtype := "crypto_price", asset := "SOL"
    participants := ["solo"] }

/-- A prediction source that returns a prediction for `"p1"` only. -/
def onePred : String → Option AgentPrediction := fun a =>
  if a = "p1" then some { signal := 1/2, confidence := 4/5 } else none

/-- A well-formed bridge consensus message for BTC. -/
def exBridgeConsensus : BridgeConsensus :=
  { asset := some "BTC", signal_strength := some (3/4)
    confidence := some (4/5), agent_count := some 5 }

/-- An exposure collaborator reporting no open positions. -/
def zeroExposure : String → Except String ℕ := fun _ => .ok 0

/-- The bridge signal that `create_trading_signal` produces from
`exBridgeConsensus` under the default configurations at `now = 5`
(the string fields are left as the unevaluated concatenations the
function builds). -/
def exBridgeSignal : BridgeTradingSignal :=
  { id := "pred_" ++ "BTC" ++ "_" ++ toString (5 : ℕ)
    source := "prediction_venue"
    timestamp := 5
    trading_pair := "BTC-USDT"
    direction := "long"
    size := 3/200
    confidence := 4/5
    signal_strength := 3/4
    entry_type := "market"
    stop_loss := some (3/200)
    take_profit := some (3/100)
    reasoning := "Prediction consensus: " ++ toString ((3 : ℚ)/4)
      ++ " signal with " ++ toString ((4 : ℚ)/5) ++ " confidence from "
      ++ toString (5 : ℕ) ++ " agents"
    prediction_data := exBridgeConsensus
    expiry := 5 + 24 * 3600 }

/-- A fresh bridge state under the default configurations. -/
def initialBridgeState : BridgeState :=
  { venue_config := defaultVenueConfig, trading_config := defaultTradingConfig
    prediction_trades := [], performance_metrics := initialMetrics }

/-- A second bridge signal (an ETH short), for the two-signal batch. -/
def exBridgeSignalETH : BridgeTradingSignal :=
  { exBridgeSignal with
    id := "pred_ETH_5"
    trading_pair := "ETH-USDT"
    direction := "short" }

/-- An engine that fills the BTC-pair signal and raises on every other
signal. -/
def exEngine : BridgeTradingSignal → Except String Fill := fun s =>
  if s.trading_pair = "BTC-USDT" then
    .ok { trade_id := "t1", price := 100, volume := 5 }
  else .error "insufficient liquidity"

/-- A phase-outcome assignment whose `AgentCoordination` phase raises. -/
def exOutcome : Phase → Except PyError Unit := fun p =>
  if p = .coordinateAgents then .error (.exception "coordination failed")
  else .ok ()

end Venue

namespace Venue

/-- Claim C1, counterexample: a consensus with signal strength 0.1 and
confidence 0.7 (at the default execution threshold) IS converted into a
trading signal by `generate_signals`, yet its size fraction is
`0.00175 = max_size × 0.1 × 0.7`, not the spec clamp value
`0.00625 = 0.25 × max_size` — the venue manager applies no lower bound. -/
theorem undersized_signal_escapes_clamp :
    generate_signals defaultVenueConfig 0 [weakConsensus]
      = [venue_signal_of defaultVenueConfig 0 weakConsensus] ∧
    (venue_signal_of defaultVenueConfig 0 weakConsensus).size = 7/4000 ∧
    size_clamp_spec defaultVenueConfig.max_position_size
        weakConsensus.signal_strength weakConsensus.confidence = 1/160 ∧
    (7/4000 : ℚ) ≠ 1/160 := by
  refine ⟨?_, ?_, ?_, by norm_num⟩
  · rw [generate_signals, if_pos (by norm_num [defaultVenueConfig, weakConsensus]), generate_signals]
  · show venue_calculate_position_size defaultVenueConfig weakConsensus = 7/4000
    rw [venue_calculate_position_size]
    rw [show |weakConsensus.signal_strength| = 1/10 from abs_of_pos (by norm_num [weakConsensus])]
    norm_num [defaultVenueConfig, weakConsensus, min_def]
  · rw [size_clamp_spec]
    rw [show |weakConsensus.signal_strength| = 1/10 from abs_of_pos (by norm_num [weakConsensus])]
    norm_num [defaultVenueConfig, weakConsensus, min_def, max_def]

/-- Claim C1, amended: the size computed by the bridge
(`PredictionTradingBridge.calculate_position_size`) equals
`clamp(max_size × |signal_strength| × confidence, 0.25 × max_size, max_size)`
and lies within `[0.25 × max_size, max_size]`; the venue manager
(`AutomatedPredictionVenue.calculate_position_size`) applies only the
upper cap, so its size is merely within `[0, max_size]` and can fall
below `0.25 × max_size`. -/
theorem position_size_bounds_amended (cfg : VenueConfig) (con : MarketConsensus)
    (hmax : 0 ≤ cfg.max_position_size)
    (_hs1 : -1 ≤ con.signal_strength) (_hs2 : con.signal_strength ≤ 1)
    (hc1 : 0 ≤ con.confidence) (_hc2 : con.confidence ≤ 1) :
    bridge_calculate_position_size cfg con.signal_strength con.confidence
        = size_clamp_spec cfg.max_position_size con.signal_strength con.confidence ∧
    cfg.max_position_size * (1/4)
        ≤ bridge_calculate_position_size cfg con.signal_strength con.confidence ∧
    bridge_calculate_position_size cfg con.signal_strength con.confidence
        ≤ cfg.max_position_size ∧
    0 ≤ venue_calculate_position_size cfg con ∧
    venue_calculate_position_size cfg con ≤ cfg.max_position_size := by
  refine ⟨?_, ?_, ?_, ?_, min_le_right _ _⟩
  · rw [bridge_calculate_position_size, size_clamp_spec, mul_one,
      mul_comm cfg.max_position_size (1/4)]
  · exact le_max_left _ _
  · rw [bridge_calculate_position_size]
    refine max_le (by linarith) ?_
    rw [mul_one]
    exact min_le_right _ _
  · exact le_min (mul_nonneg (mul_nonneg hmax hc1) (abs_nonneg _)) hmax

/-- Witness for the amended claim C1 at the default configuration and a
concrete consensus (signal strength 0.5, confidence 0.7). -/
theorem position_size_bounds_amended_witness :
    bridge_calculate_position_size defaultVenueConfig
        boundaryConsensus.signal_strength boundaryConsensus.confidence
      = size_clamp_spec defaultVenueConfig.max_position_size
          boundaryConsensus.signal_strength boundaryConsensus.confidence ∧
    defaultVenueConfig.max_position_size * (1/4)
      ≤ bridge_calculate_position_size defaultVenueConfig
          boundaryConsensus.signal_strength boundaryConsensus.confidence ∧
    bridge_calculate_position_size defaultVenueConfig
        boundaryConsensus.signal_strength boundaryConsensus.confidence
      ≤ defaultVenueConfig.max_position_size ∧
    0 ≤ venue_calculate_position_size defaultVenueConfig boundaryConsensus ∧
    venue_calculate_position_size defaultVenueConfig boundaryConsensus
      ≤ defaultVenueConfig.max_position_size :=
  position_size_bounds_amended defaultVenueConfig boundaryConsensus
    (by norm_num [defaultVenueConfig]) (by norm_num [boundaryConsensus])
    (by norm_num [boundaryConsensus]) (by norm_num [boundaryConsensus])
    (by norm_num [boundaryConsensus])

/-- Helper: a consensus at or above the threshold contributes its signal
to the output of `generate_signals`. -/
theorem mem_generate_signals_of {cfg : VenueConfig} {now : ℕ}
    {c : MarketConsensus} {cs : List MarketConsensus} (hmem : c ∈ cs)
    (hconf : cfg.execution_threshold ≤ c.confidence) :
    venue_signal_of cfg now c ∈ generate_signals cfg now cs := by
  induction cs with
  | nil => cases hmem
  | cons d rest ih =>
    rcases List.mem_cons.mp hmem with h | h
    · subst h
      rw [generate_signals, if_pos hconf]
      exact List.mem_cons_self _ _
    · by_cases hd : cfg.execution_threshold ≤ d.confidence
      · rw [generate_signals, if_pos hd]
        exact List.mem_cons_of_mem _ (ih h)
      · rw [generate_signals, if_neg hd]
        exact ih h

/-- Helper: every generated signal comes from some consensus in the input
that clears the threshold. -/
theorem exists_src_of_mem_generate_signals {cfg : VenueConfig} {now : ℕ}
    {s : VenueTradingSignal} {cs : List MarketConsensus}
    (h : s ∈ generate_signals cfg now cs) :
    ∃ c ∈ cs, cfg.execution_threshold ≤ c.confidence ∧
      s = venue_signal_of cfg now c := by
  induction cs with
  | nil => rw [generate_signals] at h; cases h
  | cons d rest ih =>
    by_cases hd : cfg.execution_threshold ≤ d.confidence
    · rw [generate_signals, if_pos hd] at h
      rcases List.mem_cons.mp h with h | h
      · exact ⟨d, List.mem_cons_self _ _, hd, h⟩
      · obtain ⟨c, hc, hconf, rfl⟩ := ih h
        exact ⟨c, List.mem_cons_of_mem _ hc, hconf, rfl⟩
    · rw [generate_signals, if_neg hd] at h
      obtain ⟨c, hc, hconf, rfl⟩ := ih h
      exact ⟨c, List.mem_cons_of_mem _ hc, hconf, rfl⟩

/-- Claim C2: for every consensus processed by signal generation, a
trading signal is produced if and only if its confidence is at least
`execution_threshold` (inclusive boundary); correspondingly, the bridge
validation `validate_consensus` rejects any consensus whose confidence is
strictly below the threshold and passes the confidence check at exactly
the threshold. -/
theorem generate_signals_threshold_iff (cfg : VenueConfig) (now : ℕ)
    (cs : List MarketConsensus) (c : MarketConsensus) (hmem : c ∈ cs) :
    (venue_signal_of cfg now c ∈ generate_signals cfg now cs
      ↔ cfg.execution_threshold ≤ c.confidence) ∧
    (∀ (b : BridgeConsensus) (conf : ℚ), b.confidence = some conf →
      conf < cfg.execution_threshold → validate_consensus cfg b = false) ∧
    (∀ (a : String) (sstr : ℚ) (n : ℕ), cfg.min_agents_per_market ≤ n →
      validate_consensus cfg
        { asset := some a, signal_strength := some sstr,
          confidence := some cfg.execution_threshold, agent_count := some n }
        = true) := by
  refine ⟨⟨?_, fun h => mem_generate_signals_of hmem h⟩, ?_, ?_⟩
  · intro h
    obtain ⟨c', _, hconf, heq⟩ := exists_src_of_mem_generate_signals h
    have hcc : c.confidence = c'.confidence :=
      congrArg VenueTradingSignal.confidence heq
    rw [hcc]
    exact hconf
  · intro b conf hb hlt
    obtain ⟨oa, os, oc, onn⟩ := b
    cases oc with
    | none => cases hb
    | some v =>
      cases hb
      cases oa <;> cases os <;> cases onn <;>
        simp [validate_consensus, if_pos hlt]
  · intro a sstr n hn
    simp [validate_consensus, not_lt.mpr hn]

/-- Witness for claim C2: at confidence exactly `0.70 = execution_threshold`
a signal is generated and validation passes; at `0.69` validation fails. -/
theorem generate_signals_threshold_iff_witness :
    (venue_signal_of defaultVenueConfig 0 boundaryConsensus
      ∈ generate_signals defaultVenueConfig 0 [boundaryConsensus]) ∧
    validate_consensus defaultVenueConfig
      { asset := some "BTC", signal_strength := some (1/2),
        confidence := some (69/100), agent_count := some 5 } = false ∧
    validate_consensus defaultVenueConfig
      { asset := some "BTC", signal_strength := some (1/2),
        confidence := some defaultVenueConfig.execution_threshold,
        agent_count := some 5 } = true := by
  have h := generate_signals_threshold_iff defaultVenueConfig 0
    [boundaryConsensus] boundaryConsensus (List.mem_singleton.mpr rfl)
  refine ⟨h.1.mpr (by norm_num [defaultVenueConfig, boundaryConsensus]),
    h.2.1 _ (69/100) rfl (by norm_num [defaultVenueConfig]),
    h.2.2 "BTC" (1/2) 5 (by norm_num [defaultVenueConfig])⟩

/-- Helper: the accumulation loop of `calculate_crypto_consensus` computes
exactly the three sums `Σ(weight_i)`, `Σ(signal_i · weight_i)`,
`Σ(confidence_i · weight_i)` written in the spec. -/
theorem consensus_sums_eq (getPred : String → Option AgentPrediction)
    (w : String → ℚ) (ps : List String) :
    consensus_sums getPred w ps
      = (spec_weight_sum getPred w ps, spec_signal_sum getPred w ps,
         spec_confidence_sum getPred w ps) := by
  induction ps with
  | nil =>
    simp [consensus_sums, spec_weight_sum, spec_signal_sum, spec_confidence_sum]
  | cons a rest ih =>
    rw [consensus_sums]
    cases h : getPred a with
    | none =>
      simp only [ih, spec_weight_sum, spec_signal_sum, spec_confidence_sum,
        List.map_cons, List.sum_cons, h]
      simp
    | some p =>
      simp only [ih, spec_weight_sum, spec_signal_sum, spec_confidence_sum,
        List.map_cons, List.sum_cons, h, Prod.mk.injEq]
      refine ⟨by ring, by ring, by ring⟩

/-- Helper: with non-negative weights and predictions in range, the total
weight is non-negative, the weighted signal sum is bounded by it in
absolute value, and the weighted confidence sum lies in `[0, Σ weight]`. -/
theorem consensus_sums_bounds (getPred : String → Option AgentPrediction)
    (w : String → ℚ) (ps : List String) (hw : ∀ a, 0 ≤ w a)
    (hp : ∀ a p, getPred a = some p →
      -1 ≤ p.signal ∧ p.signal ≤ 1 ∧ 0 ≤ p.confidence ∧ p.confidence ≤ 1) :
    0 ≤ (consensus_sums getPred w ps).1 ∧
    |(consensus_sums getPred w ps).2.1| ≤ (consensus_sums getPred w ps).1 ∧
    0 ≤ (consensus_sums getPred w ps).2.2 ∧
    (consensus_sums getPred w ps).2.2 ≤ (consensus_sums getPred w ps).1 := by
  induction ps with
  | nil => simp [consensus_sums]
  | cons a rest ih =>
    obtain ⟨hW, hS, hC0, hC⟩ := ih
    rw [consensus_sums]
    cases h : getPred a with
    | none => exact ⟨hW, hS, hC0, hC⟩
    | some p =>
      obtain ⟨h1, h2, h3, h4⟩ := hp a p h
      have hwa := hw a
      have habs : |p.signal * w a| ≤ w a := by
        rw [abs_mul, abs_of_nonneg hwa]
        have hps : |p.signal| ≤ 1 := abs_le.mpr ⟨h1, h2⟩
        nlinarith [abs_nonneg p.signal]
      refine ⟨by simp; linarith, ?_, by simp; nlinarith, by simp; nlinarith⟩
      calc |(consensus_sums getPred w rest).2.1 + p.signal * w a|
          ≤ |(consensus_sums getPred w rest).2.1| + |p.signal * w a| :=
            abs_add _ _
        _ ≤ (consensus_sums getPred w rest).1 + w a := by linarith

/-- Claim C3: for a market with at least 2 participants, if the total
reputation weight is zero the aggregation returns no consensus (no
division by zero); if it is positive, the aggregated signal strength and
confidence are exactly the weighted means `Σ(signal_i·weight_i)/Σ(weight_i)`
and `Σ(confidence_i·weight_i)/Σ(weight_i)`, and — being convex
combinations of values in `[-1,1]` and `[0,1]` — lie in those ranges. -/
theorem calculate_crypto_consensus_weighted_mean
    (getPred : String → Option AgentPrediction) (w : String → ℚ) (now : ℕ)
    (m : Market) (h2 : 2 ≤ m.participants.length) (hw : ∀ a, 0 ≤ w a)
    (hp : ∀ a p, getPred a = some p →
      -1 ≤ p.signal ∧ p.signal ≤ 1 ∧ 0 ≤ p.confidence ∧ p.confidence ≤ 1) :
    (spec_weight_sum getPred w m.participants = 0 →
      calculate_crypto_consensus getPred w now m = none) ∧
    (spec_weight_sum getPred w m.participants ≠ 0 →
      ∃ cons, calculate_crypto_consensus getPred w now m = some cons ∧
        cons.signal_strength = spec_signal_sum getPred w m.participants
          / spec_weight_sum getPred w m.participants ∧
        cons.confidence = spec_confidence_sum getPred w m.participants
          / spec_weight_sum getPred w m.participants ∧
        -1 ≤ cons.signal_strength ∧ cons.signal_strength ≤ 1 ∧
        0 ≤ cons.confidence ∧ cons.confidence ≤ 1) := by
  have hlen : ¬(m.participants.length < 2) := not_lt.mpr h2
  have heq := consensus_sums_eq getPred w m.participants
  have hb := consensus_sums_bounds getPred w m.participants hw hp
  rw [heq] at hb
  obtain ⟨hW, hS, hC0, hC⟩ := hb
  constructor
  · intro h0
    rw [calculate_crypto_consensus, if_neg hlen, heq]
    simp [h0]
  · intro hne
    have hWpos : 0 < spec_weight_sum getPred w m.participants :=
      lt_of_le_of_ne hW (Ne.symm hne)
    rw [calculate_crypto_consensus, if_neg hlen, heq]
    rw [if_neg hne]
    have habs : |spec_signal_sum getPred w m.participants
        / spec_weight_sum getPred w m.participants| ≤ 1 := by
      rw [abs_div, abs_of_pos hWpos]
      rw [div_le_one hWpos]
      exact hS
    obtain ⟨hd1, hd2⟩ := abs_le.mp habs
    exact ⟨_, rfl, rfl, rfl, hd1, hd2,
      div_nonneg hC0 (le_of_lt hWpos), (div_le_one hWpos).mpr hC⟩

/-- Witness for claim C3 on the worked example of spec §8: three unit-weight
predictions (0.73, 0.85), (0.68, 0.78), (0.82, 0.71). -/
theorem calculate_crypto_consensus_weighted_mean_witness :
    ∃ cons, calculate_crypto_consensus exGetPred (fun _ => 1) 0 exMarket
        = some cons ∧
      cons.signal_strength = spec_signal_sum exGetPred (fun _ => 1) exMarket.participants
        / spec_weight_sum exGetPred (fun _ => 1) exMarket.participants ∧
      cons.confidence = spec_confidence_sum exGetPred (fun _ => 1) exMarket.participants
        / spec_weight_sum exGetPred (fun _ => 1) exMarket.participants ∧
      -1 ≤ cons.signal_strength ∧ cons.signal_strength ≤ 1 ∧
      0 ≤ cons.confidence ∧ cons.confidence ≤ 1 := by
  have hp : ∀ a p, exGetPred a = some p →
      -1 ≤ p.signal ∧ p.signal ≤ 1 ∧ 0 ≤ p.confidence ∧ p.confidence ≤ 1 := by
    intro a p h
    simp only [exGetPred] at h
    split_ifs at h <;> cases h <;> norm_num
  have h := calculate_crypto_consensus_weighted_mean exGetPred (fun _ => 1) 0
    exMarket (by norm_num [exMarket]) (fun a => by norm_num) hp
  refine h.2 ?_
  have ha : exGetPred "alpha" = some { signal := 73/100, confidence := 85/100 } := rfl
  have hb : exGetPred "beta" = some { signal := 68/100, confidence := 78/100 } := rfl
  have hg : exGetPred "gamma" = some { signal := 82/100, confidence := 71/100 } := rfl
  simp only [spec_weight_sum, exMarket, List.map_cons, List.map_nil,
    List.sum_cons, List.sum_nil, ha, hb, hg]
  norm_num

/-- Claim C4, counterexample: a market with two participants of which only
one has a retrieved prediction has exactly one contributing prediction,
yet `calculate_crypto_consensus` returns a consensus built from that
single prediction, and `generate_signals` produces a trading signal from
it — the guard counts participants, not contributing predictions. -/
theorem single_prediction_still_consensus :
    (twoPartMarket.participants.filter fun a => (onePred a).isSome).length = 1 ∧
    calculate_crypto_consensus onePred (fun _ => 1) 0 twoPartMarket
      = some { asset := "ETH", signal_strength := (1/2) / 1,
               confidence := (4/5) / 1, agent_count := 2,
               prediction_data := twoPartMarket, timestamp := 0 } ∧
    (generate_signals defaultVenueConfig 0
      (aggregate_consensus onePred (fun _ => 1) 0 [twoPartMarket])).length = 1 := by
  have h1 : onePred "p1" = some { signal := 1/2, confidence := 4/5 } := rfl
  have h2 : onePred "p2" = none := rfl
  have hsums : consensus_sums onePred (fun _ => 1) twoPartMarket.participants
      = (0 + 1, 0 + (1/2) * 1, 0 + (4/5) * 1) := by
    simp only [twoPartMarket, consensus_sums, h1, h2]
  have hcons : calculate_crypto_consensus onePred (fun _ => 1) 0 twoPartMarket
      = some { asset := "ETH", signal_strength := (1/2) / 1,
               confidence := (4/5) / 1, agent_count := 2,
               prediction_data := twoPartMarket, timestamp := 0 } := by
    rw [calculate_crypto_consensus, if_neg (by norm_num [twoPartMarket])]
    rw [hsums]
    rw [if_neg (by norm_num)]
    norm_num [twoPartMarket]
  refine ⟨?_, hcons, ?_⟩
  · simp [twoPartMarket, List.filter, h1, h2]
  · have hagg : aggregate_consensus onePred (fun _ => 1) 0 [twoPartMarket]
        = [{ asset := "ETH", signal_strength := (1/2) / 1,
             confidence := (4/5) / 1, agent_count := 2,
             prediction_data := twoPartMarket, timestamp := 0 }] := by
      simp only [aggregate_consensus, List.filterMap_cons, List.filterMap_nil]
      rw [if_pos (show twoPartMarket.mtype = "crypto_price" from rfl), hcons]
    rw [hagg, generate_signals, if_pos (by norm_num [defaultVenueConfig])]
    simp [generate_signals]

/-- Claim C4, amended: for every market with fewer than 2 PARTICIPANTS,
consensus aggregation returns no consensus and no trading signal is
generated from that market in that cycle; the source guard counts the
participant list, and a market with 2 participants but a single retrieved
prediction can still produce a consensus and a signal. -/
theorem few_participants_no_consensus
    (getPred : String → Option AgentPrediction) (w : String → ℚ) (now : ℕ)
    (cfg : VenueConfig) (m : Market) (h : m.participants.length < 2) :
    calculate_crypto_consensus getPred w now m = none ∧
    aggregate_consensus getPred w now [m] = [] ∧
    generate_signals cfg now (aggregate_consensus getPred w now [m]) = [] := by
  have h1 : calculate_crypto_consensus getPred w now m = none := by
    rw [calculate_crypto_consensus, if_pos h]
  have h2 : aggregate_consensus getPred w now [m] = [] := by
    simp [aggregate_consensus, h1]
  exact ⟨h1, h2, by rw [h2, generate_signals]⟩

/-- Witness for the amended claim C4 on a single-participant market. -/
theorem few_participants_no_consensus_witness :
    calculate_crypto_consensus onePred (fun _ => 1) 0 soloMarket = none ∧
    aggregate_consensus onePred (fun _ => 1) 0 [soloMarket] = [] ∧
    generate_signals defaultVenueConfig 0
      (aggregate_consensus onePred (fun _ => 1) 0 [soloMarket]) = [] :=
  few_participants_no_consensus onePred (fun _ => 1) 0 defaultVenueConfig
    soloMarket (by norm_num [soloMarket])

/-- Claim C5: risk assessment applies its checks in order with the first
failing check short-circuiting — open-position count at or above
`max_positions` rejects regardless of size, otherwise size above
`max_position_size` rejects, otherwise it approves and attaches the
stop-loss and take-profit fractions taken from the trading config (not
derived from the signal itself: the approval record does not depend on
`size` or `exposure`). -/
theorem assess_trade_risk_check_order (tcfg : TradingConfig) (exposure : ℕ)
    (size : ℚ) :
    (tcfg.max_positions ≤ exposure →
      assess_trade_risk_checks tcfg exposure size
        = { approved := false, reason := "Maximum exposure reached",
            stop_loss := none, take_profit := none }) ∧
    (exposure < tcfg.max_positions → tcfg.max_position_size < size →
      assess_trade_risk_checks tcfg exposure size
        = { approved := false, reason := "Position size exceeds limit",
            stop_loss := none, take_profit := none }) ∧
    (exposure < tcfg.max_positions → size ≤ tcfg.max_position_size →
      assess_trade_risk_checks tcfg exposure size
        = { approved := true, reason := "Trade approved",
            stop_loss := some tcfg.stop_loss,
            take_profit := some tcfg.take_profit }) := by
  refine ⟨fun h => ?_, fun h1 h2 => ?_, fun h1 h2 => ?_⟩
  · rw [assess_trade_risk_checks, if_pos h]
  · rw [assess_trade_risk_checks, if_neg (not_le.mpr h1), if_pos h2]
  · rw [assess_trade_risk_checks, if_neg (not_le.mpr h1),
      if_neg (not_lt.mpr h2)]

/-- Witness for claim C5 at the default config: exposure 5 rejects for
exposure, size 0.1 rejects for size, size 0.015 is approved with
stop-loss 0.015 and take-profit 0.03. -/
theorem assess_trade_risk_check_order_witness :
    assess_trade_risk_checks defaultTradingConfig 5 (1/100)
      = { approved := false, reason := "Maximum exposure reached",
          stop_loss := none, take_profit := none } ∧
    assess_trade_risk_checks defaultTradingConfig 0 (1/10)
      = { approved := false, reason := "Position size exceeds limit",
          stop_loss := none, take_profit := none } ∧
    assess_trade_risk_checks defaultTradingConfig 0 (3/200)
      = { approved := true, reason := "Trade approved",
          stop_loss := some defaultTradingConfig.stop_loss,
          take_profit := some defaultTradingConfig.take_profit } :=
  ⟨(assess_trade_risk_check_order defaultTradingConfig 5 (1/100)).1
      (by norm_num [defaultTradingConfig]),
   (assess_trade_risk_check_order defaultTradingConfig 0 (1/10)).2.1
      (by norm_num [defaultTradingConfig]) (by norm_num [defaultTradingConfig]),
   (assess_trade_risk_check_order defaultTradingConfig 0 (3/200)).2.2
      (by norm_num [defaultTradingConfig]) (by norm_num [defaultTradingConfig])⟩

/-- Claim C9: risk assessment leaves the whole bridge state unchanged,
always returns a decision carrying a non-empty reason, and converts a
failing exposure lookup into a non-approved decision instead of
propagating the exception. -/
theorem assess_trade_risk_pure_total (st : BridgeState)
    (exposureResult : Except String ℕ) (size : ℚ) :
    (assess_trade_risk_st st exposureResult size).2 = st ∧
    (assess_trade_risk_st st exposureResult size).1.reason ≠ "" ∧
    (∀ e, exposureResult = .error e →
      (assess_trade_risk_st st exposureResult size).1.approved = false) := by
  refine ⟨rfl, ?_, ?_⟩
  · cases exposureResult with
    | error e => simp [assess_trade_risk_st, assess_trade_risk]
    | ok n =>
      simp only [assess_trade_risk_st, assess_trade_risk,
        assess_trade_risk_checks]
      split_ifs <;> simp
  · rintro e rfl
    rfl

/-- Witness for claim C9: a failing exposure lookup yields a non-approved
decision and the state is unchanged. -/
theorem assess_trade_risk_pure_total_witness :
    (assess_trade_risk_st initialBridgeState
        (.error "network timeout") (1/100)).2 = initialBridgeState ∧
    (assess_trade_risk_st initialBridgeState
        (.error "network timeout") (1/100)).1.approved = false := by
  have h := assess_trade_risk_pure_total initialBridgeState
    (.error "network timeout") (1/100)
  exact ⟨h.1, h.2.2 "network timeout" rfl⟩

/-- Helper: the execution loop counts one success or one failure per
signal, starting from any accumulator. -/
theorem exec_signals_counts (engine : BridgeTradingSignal → Except String Fill)
    (signals : List BridgeTradingSignal) :
    ∀ (res : ExecutionResults) (tr : List TradeRecord),
      (exec_signals engine signals res tr).1.successful
        = res.successful
          + (signals.filter fun s => (execute_single_trade engine s).success).length ∧
      (exec_signals engine signals res tr).1.failed
        = res.failed
          + (signals.filter fun s => !(execute_single_trade engine s).success).length := by
  induction signals with
  | nil => intro res tr; simp [exec_signals]
  | cons s rest ih =>
    intro res tr
    rw [exec_signals]
    cases h : (execute_single_trade engine s).success with
    | true =>
      simp only [h, if_pos, List.filter_cons, Bool.not_true, if_neg]
      obtain ⟨ih1, ih2⟩ := ih _ _
      constructor
      · rw [ih1]; simp [h]; omega
      · rw [ih2]; simp [h]
    | false =>
      simp only [h, Bool.false_eq_true, if_neg, not_false_iff]
      obtain ⟨ih1, ih2⟩ := ih _ _
      constructor
      · rw [ih1]; simp [h]
      · rw [ih2]; simp [h]; omega

/-- Claim C6: for every batch of N signals, each signal gets its own
execution attempt whose individual outcome (success or failure) is
counted independently of the other signals, and the returned report
satisfies `successful + failed = N`. -/
theorem execution_partial_failure_isolation
    (engine : BridgeTradingSignal → Except String Fill) (st : BridgeState)
    (signals : List BridgeTradingSignal) :
    (execute_prediction_trades engine st signals).1.successful
      = (signals.filter fun s => (execute_single_trade engine s).success).length ∧
    (execute_prediction_trades engine st signals).1.failed
      = (signals.filter fun s => !(execute_single_trade engine s).success).length ∧
    (execute_prediction_trades engine st signals).1.successful
      + (execute_prediction_trades engine st signals).1.failed
      = signals.length := by
  obtain ⟨h1, h2⟩ := exec_signals_counts engine signals
    { successful := 0, failed := 0, total_volume := 0, trades := [] }
    st.prediction_trades
  have e1 : (execute_prediction_trades engine st signals).1.successful
      = (signals.filter fun s => (execute_single_trade engine s).success).length := by
    rw [execute_prediction_trades]
    simpa using h1
  have e2 : (execute_prediction_trades engine st signals).1.failed
      = (signals.filter fun s => !(execute_single_trade engine s).success).length := by
    rw [execute_prediction_trades]
    simpa using h2
  refine ⟨e1, e2, ?_⟩
  rw [e1, e2]
  exact (List.length_eq_length_filter_add
    (fun s => (execute_single_trade engine s).success)).symm

/-- Claim C7, behaviour of the code at the failing input: a batch of two
signals of which the first executes and the second fails leaves
`total_signals = 1` (not 2: the code adds the length of the `trades`
list, which only collects successes), `executed_trades = 1`, and hence
`accuracy_rate = 1` (the claim expects `2` and `0.5`). -/
theorem metrics_count_only_successes :
    (execute_prediction_trades exEngine initialBridgeState
        [exBridgeSignal, exBridgeSignalETH]).1.successful = 1 ∧
    (execute_prediction_trades exEngine initialBridgeState
        [exBridgeSignal, exBridgeSignalETH]).1.failed = 1 ∧
    ((execute_prediction_trades exEngine initialBridgeState
        [exBridgeSignal, exBridgeSignalETH]).2).performance_metrics.total_signals
      = 1 ∧
    ((execute_prediction_trades exEngine initialBridgeState
        [exBridgeSignal, exBridgeSignalETH]).2).performance_metrics.executed_trades
      = 1 ∧
    ((execute_prediction_trades exEngine initialBridgeState
        [exBridgeSignal, exBridgeSignalETH]).2).performance_metrics.accuracy_rate
      = 1 := by
  have hbtc : execute_single_trade exEngine exBridgeSignal
      = { success := true, trade_id := some "t1", executed_price := some 100,
          volume := 5, error := none } := rfl
  have heth : execute_single_trade exEngine exBridgeSignalETH
      = { success := false, trade_id := none, executed_price := none,
          volume := 0, error := some "insufficient liquidity" } := rfl
  rw [execute_prediction_trades, exec_signals, hbtc]
  rw [if_pos rfl]
  rw [exec_signals, heth]
  rw [if_neg (by norm_num)]
  rw [exec_signals]
  simp [update_performance_metrics, initialBridgeState, initialMetrics]

/-- Helper: concrete evaluation of `create_trading_signal` on the BTC
fixture under the default configurations. -/
theorem create_signal_witness_aux :
    create_trading_signal defaultVenueConfig defaultTradingConfig
      zeroExposure 5 exBridgeConsensus = some exBridgeSignal := by
  have hsize : bridge_calculate_position_size defaultVenueConfig (3/4) (4/5)
      = 3/200 := by
    rw [bridge_calculate_position_size,
      show |(3/4 : ℚ)| = 3/4 from abs_of_pos (by norm_num)]
    norm_num [defaultVenueConfig, min_def, max_def]
  have hrisk : assess_trade_risk defaultTradingConfig
      (zeroExposure "BTC-USDT") (3/200)
      = { approved := true, reason := "Trade approved",
          stop_loss := some (3/200), take_profit := some (3/100) } := by
    show assess_trade_risk_checks defaultTradingConfig 0 (3/200) = _
    rw [assess_trade_risk_checks,
      if_neg (by norm_num [defaultTradingConfig]),
      if_neg (by norm_num [defaultTradingConfig])]
    rfl
  norm_num [create_trading_signal, exBridgeConsensus,
    show map_asset_to_pair "BTC" = some "BTC-USDT" from by decide,
    hsize, hrisk, exBridgeSignal]

/-- Helper: a cycle in which every phase succeeds runs all phases. -/
theorem run_phases_all_ok (outcome : Phase → Except PyError Unit)
    (l : List Phase) (h : ∀ q ∈ l, outcome q = .ok ()) :
    run_phases outcome l = (l, .ok ()) := by
  induction l with
  | nil => rfl
  | cons p rest ih =>
    rw [run_phases, h p (List.mem_cons_self _ _),
      ih fun q hq => h q (List.mem_cons_of_mem _ hq)]

/-- Helper: the first phase that raises stops the cycle; later phases do
not run. -/
theorem run_phases_stops_at_error (outcome : Phase → Except PyError Unit)
    (e : String) :
    ∀ (pre : List Phase) (p : Phase) (post : List Phase),
      (∀ q ∈ pre, outcome q = .ok ()) →
      outcome p = .error (.exception e) →
      run_phases outcome (pre ++ p :: post)
        = (pre ++ [p], .error (.exception e)) := by
  intro pre
  induction pre with
  | nil =>
    intro p post _ hp
    rw [List.nil_append, run_phases, hp]
    rfl
  | cons q pre' ih =>
    intro p post hpre hp
    rw [List.cons_append, run_phases, hpre q (List.mem_cons_self _ _),
      ih p post (fun r hr => hpre r (List.mem_cons_of_mem _ hr)) hp]
    rfl

/-- Claim C8: when a phase of the venue cycle raises, the remaining phases
of that cycle are skipped and the main loop sleeps `60` seconds (the
error backoff) instead of the normal `30 * 60`-second interval, and the
loop does not shut down; a clean cycle sleeps the normal interval. -/
theorem cycle_error_backoff (outcome : Phase → Except PyError Unit) :
    (∀ (pre : List Phase) (p : Phase) (post : List Phase) (e : String),
      cycle_order = pre ++ p :: post →
      (∀ q ∈ pre, outcome q = .ok ()) →
      outcome p = .error (.exception e) →
      run_venue_cycle outcome = (pre ++ [p], .error (.exception e)) ∧
      main_iteration (run_venue_cycle outcome).2 = .continueAfterSleep 60 ∧
      main_iteration (run_venue_cycle outcome).2 ≠ .shutdown) ∧
    ((∀ q ∈ cycle_order, outcome q = .ok ()) →
      main_iteration (run_venue_cycle outcome).2
        = .continueAfterSleep (30 * 60)) := by
  constructor
  · intro pre p post e horder hpre hp
    have hrun : run_venue_cycle outcome = (pre ++ [p], .error (.exception e)) := by
      rw [run_venue_cycle, horder]
      exact run_phases_stops_at_error outcome e pre p post hpre hp
    refine ⟨hrun, ?_, ?_⟩
    · rw [hrun]
      rfl
    · rw [hrun]
      simp [main_iteration]
  · intro h
    rw [run_venue_cycle, run_phases_all_ok outcome cycle_order h]
    rfl

/-- Witness for claim C8: a failure in the agent-coordination phase runs
only the first two phases and yields the 60-second backoff. -/
theorem cycle_error_backoff_witness :
    run_venue_cycle exOutcome
      = ([.manageMarkets, .coordinateAgents],
         .error (.exception "coordination failed")) ∧
    main_iteration (run_venue_cycle exOutcome).2 = .continueAfterSleep 60 ∧
    main_iteration (run_venue_cycle exOutcome).2 ≠ .shutdown := by
  have h := (cycle_error_backoff exOutcome).1 [.manageMarkets]
    .coordinateAgents
    [.aggregateConsensusPhase, .generateSignalsPhase, .executeTradesPhase,
     .updateMetricsPhase] "coordination failed" rfl
    (by intro q hq; rw [List.mem_singleton] at hq; subst hq; rfl) rfl
  exact h

/-- Claim C10: every trading signal built by `create_trading_signal`
carries `signal_strength = |consensus signal strength|` (hence
non-negative), keeps the direction only in the `direction` field
(`long` when strictly positive, else `short`), and stores the original
consensus record verbatim under `prediction_data`. -/
theorem signal_strength_abs_and_data_retained
    (vcfg : VenueConfig) (tcfg : TradingConfig)
    (exposureOf : String → Except String ℕ) (now : ℕ)
    (c : BridgeConsensus) (s : BridgeTradingSignal)
    (h : create_trading_signal vcfg tcfg exposureOf now c = some s) :
    ∃ ss, c.signal_strength = some ss ∧ s.signal_strength = |ss| ∧
      0 ≤ s.signal_strength ∧ s.prediction_data = c ∧
      s.direction = (if 0 < ss then "long" else "short") := by
  obtain ⟨oa, os, oc, onn⟩ := c
  cases oa with
  | none => exact absurd h (by simp [create_trading_signal])
  | some a =>
  cases os with
  | none => exact absurd h (by simp [create_trading_signal])
  | some ss =>
  cases oc with
  | none => exact absurd h (by simp [create_trading_signal])
  | some conf =>
  cases onn with
  | none => exact absurd h (by simp [create_trading_signal])
  | some n =>
  simp only [create_trading_signal] at h
  split at h
  · cases h
  · split at h
    · injection h with h
      subst h
      exact ⟨ss, rfl, rfl, abs_nonneg _, rfl, rfl⟩
    · cases h

/-- Witness for claim C10 on the BTC fixture: the produced signal has
`signal_strength = |3/4| = 3/4` and retains the consensus verbatim. -/
theorem signal_strength_abs_and_data_retained_witness :
    ∃ ss, exBridgeConsensus.signal_strength = some ss ∧
      exBridgeSignal.signal_strength = |ss| ∧
      0 ≤ exBridgeSignal.signal_strength ∧
      exBridgeSignal.prediction_data = exBridgeConsensus ∧
      exBridgeSignal.direction = (if 0 < ss then "long" else "short") :=
  signal_strength_abs_and_data_retained defaultVenueConfig
    defaultTradingConfig zeroExposure 5 exBridgeConsensus exBridgeSignal
    create_signal_witness_aux

end Venue
